import Mathlib

/-!
# Verification of the statement validator (`src/validation/statement.rs`)

This file shallowly embeds the statement-level validator of the IEC 61131-3
Structured Text compiler and proves/refutes the frozen claims about it.

Modelling conventions:
* Each Rust rule function becomes a pure Lean function that returns the list
  of diagnostics it would push, in push order.  The source's side-effecting
  `validator.push_diagnostic` calls are therefore reflected as list appends.
* Source ranges/locations are carried through diagnostics unchanged in the
  source and no claim concerns them, so they are omitted from the embedding.
* The `Index`, `AnnotationMap` (here `AnnotMap`), const evaluator and POU
  resolution are external collaborators of the validator (spec section 2);
  they are modelled as records of oracle functions supplied to each theorem.
* The single panic site in the file (`unreachable!()` inside
  `validate_access_index`) is modelled by returning `Option`, with `none`
  standing for the panic.
* Helper functions of this repository that live outside the provided
  `src/` tree (in `ast.rs`, `typesystem.rs`, codegen) are modelled from the
  spec; each such definition carries a doc comment starting with
  `Modelled from the spec:`.
-/

namespace Rusty

/-- String encoding of character and string types. -/
inductive Encoding
  | utf8
  | utf16
deriving DecidableEq, Repr

/-- The generic type-nature constraints (spec section 3). -/
inductive TypeNature
  | Any
  | Magnitude
  | Num
  | Int
  | Real
  | Unsigned
  | Signed
  | Bit
  | String
  | Char
  | Elementary
  | Derived
deriving DecidableEq, Repr

/-- `VariableType` of `index.rs`: the declaration block a variable lives in. -/
inductive VariableType
  | Input
  | Output
  | InOut
  | Return
  | Local
  | Global
  | Temp
  | External
deriving DecidableEq, Repr

/-- `ArgumentType` of `index.rs`: by-value or by-reference passing. -/
inductive ArgumentType
  | ByVal (vt : VariableType)
  | ByRef (vt : VariableType)
deriving DecidableEq, Repr

/-- `ArgumentType::get_variable_type`. -/
def ArgumentType.get_variable_type : ArgumentType → VariableType
  | .ByVal vt => vt
  | .ByRef vt => vt

/-- Binary/unary operators appearing in expressions. -/
inductive Operator
  | Plus
  | Minus
  | Multiplication
  | Division
  | Modulo
  | Equal
  | NotEqual
  | Less
  | Greater
  | LessOrEqual
  | GreaterOrEqual
  | And
  | Or
  | Xor
  | Not
  | Address
deriving DecidableEq, Repr

/-- Modelled from the spec: `Operator::is_comparison_operator` lives in
`ast.rs`, which is not under `src/`.  Spec section 4.7 treats the six
relational operators as comparisons. -/
def Operator.is_comparison_operator : Operator → Bool
  | .Equal | .NotEqual | .Less | .Greater | .LessOrEqual | .GreaterOrEqual => true
  | _ => false

/-- `DirectAccessType` of `ast.rs`: bit/byte/word/dword slices. -/
inductive DirectAccessType
  | Bit
  | Byte
  | Word
  | DWord
deriving DecidableEq, Repr

/-- Modelled from the spec: the bit width of each direct-access slice kind
(`DirectAccessType::get_bit_width` is in `ast.rs`, not under `src/`). -/
def DirectAccessType.get_bit_width : DirectAccessType → Nat
  | .Bit => 1
  | .Byte => 8
  | .Word => 16
  | .DWord => 32

/-- Debug rendering of a `DirectAccessType`, as `format!` produces it. -/
def DirectAccessType.repr_str : DirectAccessType → String
  | .Bit => "Bit"
  | .Byte => "Byte"
  | .Word => "Word"
  | .DWord => "DWord"

/-- The AST statement variants the validator pattern-matches on
(spec section 3, `AstStatement` in `ast.rs`). -/
inductive AstStatement
  | EmptyStatement
  | LiteralInteger (value : Int)
  | LiteralReal (value : String)
  | LiteralBool (value : Bool)
  | LiteralString (value : String) (is_wide : Bool)
  | LiteralNull
  | Reference (name : String)
  | QualifiedReference (elements : List AstStatement)
  | ArrayAccess (reference : AstStatement) (access : AstStatement)
  | PointerAccess (reference : AstStatement)
  | DirectAccess (access : DirectAccessType) (index : AstStatement)
  | BinaryExpression (operator : Operator) (left : AstStatement) (right : AstStatement)
  | UnaryExpression (operator : Operator) (value : AstStatement)
  | ExpressionList (expressions : List AstStatement)
  | Assignment (left : AstStatement) (right : AstStatement)
  | OutputAssignment (left : AstStatement) (right : AstStatement)
  | CallStatement (operator : AstStatement) (parameters : Option AstStatement)
  | CaseCondition (condition : AstStatement)
  | CastStatement (type_name : String) (target : AstStatement)
  | RangeStatement (start : AstStatement) (stop : AstStatement)

/-- Modelled from the spec: `AstStatement::can_be_assigned_to` is in
`ast.rs`, not under `src/`.  Spec section 4.2 step 2: assignable =
`Reference | QualifiedReference | ArrayAccess | PointerAccess | DirectAccess`. -/
def can_be_assigned_to : AstStatement → Bool
  | .Reference _ => true
  | .QualifiedReference _ => true
  | .ArrayAccess _ _ => true
  | .PointerAccess _ => true
  | .DirectAccess _ _ => true
  | _ => false

/-- Modelled from the spec: `AstStatement::is_literal` is in `ast.rs`, not
under `src/`.  The literal variants are those of spec section 3. -/
def is_literal : AstStatement → Bool
  | .LiteralInteger _ => true
  | .LiteralReal _ => true
  | .LiteralBool _ => true
  | .LiteralString _ _ => true
  | .LiteralNull => true
  | _ => false

/-- Modelled from the spec: `ast::flatten_expression_list` is not under
`src/`.  Spec section 4.3: a comma separator produces an `ExpressionList`,
whose elements are the positional arguments; any other statement is a
single argument. -/
def flatten_expression_list : AstStatement → List AstStatement
  | .ExpressionList expressions => expressions
  | s => [s]

/-- The type-description variants the validator inspects
(`DataTypeInformation` in `typesystem.rs`, spec section 3). -/
inductive DataTypeInformation
  | Integer (name : String) (signed : Bool) (size : Nat)
  | Float (name : String) (size : Nat)
  | Str (name : String) (encoding : Encoding) (size : Nat)
  | Char (name : String) (encoding : Encoding)
  | Pointer (name : String) (inner_type_name : String) (auto_deref : Bool)
  | Array (name : String) (inner_type_name : String)
  | Struct (name : String)
  | Generic (name : String) (generic_symbol : String) (nature : TypeNature)
  | Void
deriving DecidableEq, Repr

/-- `DataTypeInformation::get_name`. -/
def DataTypeInformation.get_name : DataTypeInformation → String
  | .Integer n _ _ => n
  | .Float n _ => n
  | .Str n _ _ => n
  | .Char n _ => n
  | .Pointer n _ _ => n
  | .Array n _ => n
  | .Struct n => n
  | .Generic n _ _ => n
  | .Void => "VOID"

/-- Modelled from the spec: `is_pointer` (including auto-deref pointers),
spec section 3 predicate list. -/
def DataTypeInformation.is_pointer : DataTypeInformation → Bool
  | .Pointer _ _ _ => true
  | _ => false

/-- Modelled from the spec: `is_int`, spec section 3 predicate list. -/
def DataTypeInformation.is_int : DataTypeInformation → Bool
  | .Integer _ _ _ => true
  | _ => false

/-- Modelled from the spec: `is_float`, spec section 3 predicate list. -/
def DataTypeInformation.is_float : DataTypeInformation → Bool
  | .Float _ _ => true
  | _ => false

/-- Modelled from the spec: `is_numerical` = integer or float,
spec section 3 predicate list. -/
def DataTypeInformation.is_numerical : DataTypeInformation → Bool
  | .Integer _ _ _ => true
  | .Float _ _ => true
  | _ => false

/-- Modelled from the spec: `is_character`, spec section 3 predicate list. -/
def DataTypeInformation.is_character : DataTypeInformation → Bool
  | .Char _ _ => true
  | _ => false

/-- Modelled from the spec: `is_string`, spec section 3 predicate list. -/
def DataTypeInformation.is_string : DataTypeInformation → Bool
  | .Str _ _ _ => true
  | _ => false

/-- Modelled from the spec: `is_aggregate` = array, struct or string,
spec section 3 predicate list. -/
def DataTypeInformation.is_aggregate : DataTypeInformation → Bool
  | .Array _ _ => true
  | .Struct _ => true
  | .Str _ _ _ => true
  | _ => false

/-- Whether two type descriptions use the same variant
(`std::mem::discriminant` comparison in the source). -/
def same_discriminant : DataTypeInformation → DataTypeInformation → Bool
  | .Integer _ _ _, .Integer _ _ _ => true
  | .Float _ _, .Float _ _ => true
  | .Str _ _ _, .Str _ _ _ => true
  | .Char _ _, .Char _ _ => true
  | .Pointer _ _ _, .Pointer _ _ _ => true
  | .Array _ _, .Array _ _ => true
  | .Struct _, .Struct _ => true
  | .Generic _ _ _, .Generic _ _ _ => true
  | .Void, .Void => true
  | _, _ => false

/-- Modelled from the spec: the nature hierarchy behind `has_nature`
(`typesystem.rs`, not under `src/`).  Glossary and section 3: `Signed`
and `Unsigned` refine `Int`; `Int` and `Real` refine `Num`; `Num` refines
`Magnitude`; magnitudes, bits, chars and strings are `Elementary`;
everything satisfies `Any`. -/
def TypeNature.derives : TypeNature → TypeNature → Bool
  | _, .Any => true
  | .Any, _ => false
  | .Derived, n => n == .Derived
  | .Elementary, n => n == .Elementary
  | .Magnitude, n => n == .Magnitude || n == .Elementary
  | .Num, n => n == .Num || n == .Magnitude || n == .Elementary
  | .Real, n => n == .Real || n == .Num || n == .Magnitude || n == .Elementary
  | .Int, n => n == .Int || n == .Num || n == .Magnitude || n == .Elementary
  | .Signed, n =>
      n == .Signed || n == .Int || n == .Num || n == .Magnitude || n == .Elementary
  | .Unsigned, n =>
      n == .Unsigned || n == .Int || n == .Num || n == .Magnitude || n == .Elementary
  | .Bit, n => n == .Bit || n == .Elementary
  | .Char, n => n == .Char || n == .Elementary
  | .String, n => n == .String || n == .Elementary

/-- Debug rendering of a nature, as `format!` produces it. -/
def nature_name : TypeNature → String
  | .Any => "Any"
  | .Magnitude => "Magnitude"
  | .Num => "Num"
  | .Int => "Int"
  | .Real => "Real"
  | .Unsigned => "Unsigned"
  | .Signed => "Signed"
  | .Bit => "Bit"
  | .String => "String"
  | .Char => "Char"
  | .Elementary => "Elementary"
  | .Derived => "Derived"

/-- A registered data type: name, description and nature
(`DataType` in `typesystem.rs`). -/
structure DataType where
  name : String
  info : DataTypeInformation
  nature : TypeNature
deriving DecidableEq, Repr

/-- `DataType::get_type_information` composed with `get_name` is used by
several diagnostics; `DataType::get_name` returns the registered name. -/
def DataType.get_name (t : DataType) : String := t.name

/-- Modelled from the spec: `DataType::has_nature` (`typesystem.rs`, not
under `src/`) checks the type's nature against the expected one. -/
def DataType.has_nature (t : DataType) (n : TypeNature) : Bool :=
  t.nature.derives n

/-- Modelled from the spec: `DataType::is_real` (`typesystem.rs`, not under
`src/`): the type is a floating-point type. -/
def DataType.is_real (t : DataType) : Bool := t.info.is_float

/-- Modelled from the spec: `DataType::is_numerical` (`typesystem.rs`, not
under `src/`). -/
def DataType.is_numerical (t : DataType) : Bool := t.info.is_numerical

/-- Modelled from the spec: `DataType::is_aggregate_type` (`typesystem.rs`,
not under `src/`): aggregate = array, struct or string. -/
def DataType.is_aggregate_type (t : DataType) : Bool := t.info.is_aggregate

/-- The synthetic `VOID` type used for unresolved nodes. -/
def void_type : DataType := ⟨"VOID", .Void, .Any⟩

/-- `POINTER_SIZE` of `typesystem.rs` (spec section 3 invariants:
process-wide constant, typically 64 bits). -/
def POINTER_SIZE : Nat := 64

/-- `BOOL_TYPE` of `typesystem.rs`: the name of the boolean type. -/
def BOOL_TYPE : String := "BOOL"

/-- A variable entry of the symbol index (`VariableIndexEntry` in
`index.rs`, spec section 3). -/
structure VariableIndexEntry where
  name : String
  qualified_name : String
  data_type_name : String
  variable_type : ArgumentType
  location_in_parent : Nat
  is_constant : Bool
deriving DecidableEq, Repr

/-- `VariableIndexEntry::get_variable_type`. -/
def VariableIndexEntry.get_variable_type (v : VariableIndexEntry) : VariableType :=
  v.variable_type.get_variable_type

/-- POU entries of the symbol index (`PouIndexEntry` in `index.rs`). -/
inductive PouIndexEntry
  | Function (name : String)
  | FunctionBlock (name : String)
  | Program (name : String)
  | Action (name : String) (container : String)
  | Method (name : String) (container : String)
  | Class (name : String)
deriving DecidableEq, Repr

/-- `PouIndexEntry::get_name`. -/
def PouIndexEntry.get_name : PouIndexEntry → String
  | .Function n => n
  | .FunctionBlock n => n
  | .Program n => n
  | .Action n _ => n
  | .Method n _ => n
  | .Class n => n

/-- The resolved annotation attached to a node (`StatementAnnotation` in
`resolver`, spec section 3). -/
inductive StatementAnnot
  | Variable (qualified_name : String) (resulting_type : String)
      (constant : Bool) (variable_type : VariableType)
  | Value (resulting_type : String)
  | TypeAnnot (type_name : String)
  | ProgramAnnot (qualified_name : String)
  | FunctionAnnot (return_type : String) (qualified_name : String)
deriving DecidableEq, Repr

/-- The diagnostics the embedded rules can produce.  Payloads follow the
arguments the source passes to the corresponding `Diagnostic` constructor;
source ranges are omitted (see the module header). -/
inductive Diagnostic
  | cannot_assign_to_constant (qualified_name : String)
  | reference_expected
  | invalid_assignment (right_name : String) (left_name : String)
  | syn_error (message : String)
  | incompatible_type_size (name : String) (size : Nat) (text : String)
  | implicit_downcast (left_name : String) (right_name : String)
  | invalid_argument_type (param_name : String) (vt : VariableType)
  | invalid_parameter_type
  | missing_inout_parameter (name : String)
  | missing_compare_function (function_name : String) (type_name : String)
  | invalid_operation (message : String)
  | incompatible_directaccess (access : String) (bit_width : Nat)
  | incompatible_directaccess_range (access : String) (target_name : String)
  | incompatible_directaccess_variable (type_name : String)
  | invalid_case_condition
  | non_constant_case_condition (err : String)
  | duplicate_case_condition (value : Int)
  | case_condition_outside_case_statement
  | unresolved_generic_type (symbol : String) (nature : String)
  | invalid_type_nature (actual : String) (expected : String)
  | unresolved_reference (name : String)
  | illegal_access (name : String)
deriving DecidableEq, Repr

/-- The read-only symbol index, an external collaborator (spec sections 2
and 6).  Only the operations the embedded rules consume are modelled, as
oracle functions. -/
structure Index where
  get_effective_type_or_void_by_name : String → DataType
  find_pou_implementation : String → Option String
  get_pou_members : String → List VariableIndexEntry
  get_declared_parameters : String → List VariableIndexEntry
  find_intrinsic_type : DataTypeInformation → DataTypeInformation
  get_size_in_bits : DataTypeInformation → Nat
  get_size : DataTypeInformation → Nat

/-- The read-only annotation map, an external collaborator (spec sections 2
and 6), modelled as oracle functions keyed on the node. -/
structure AnnotMap where
  get : AstStatement → Option StatementAnnot
  get_type : AstStatement → Option DataType
  get_type_hint : AstStatement → Option DataType
  has_type_ann : AstStatement → Bool
  get_generic_nature : AstStatement → Option TypeNature

/-- `AnnotationMap::get_type_or_void`. -/
def AnnotMap.get_type_or_void (a : AnnotMap) (s : AstStatement) : DataType :=
  (a.get_type s).getD void_type

/-- `ValidationContext`: index, annotations, lexical qualifier, plus the
POU resolution and the constant evaluator the validator consults
(both external, spec section 6). -/
structure ValidationContext where
  index : Index
  annots : AnnotMap
  qualifier : Option String
  find_pou : AstStatement → Option PouIndexEntry
  const_eval : AstStatement → Except String (Option AstStatement)

/-- Modelled from the spec: `DataType::is_compatible_with_type` lives in
`typesystem.rs`, which is not under `src/`.  Spec section 4.2 step 4 calls
it "broad compatibility" and never attributes a rejection to it alone:
every rejection in sections 4.2 and 8 is carried by `is_valid_assignment`'s
specific rules, and the char allowance of section 4.2 together with
scenario 2 of section 8 requires a character target to pass it against a
string literal.  It is therefore modelled as accepting every pair, leaving
all rejections to the specific rules embedded below. -/
def is_compatible_with_type (_left _right : DataType) : Bool := true

/-- Modelled from the spec: `is_compatible_char_and_string`
(`typesystem.rs`, not under `src/`).  Section 4.2: a character target may
take a string literal; the encodings must agree (`CHAR` with `STRING`,
`WCHAR` with `WSTRING`). -/
def is_compatible_char_and_string
    (left_type right_type : DataTypeInformation) : Bool :=
  match left_type, right_type with
  | .Char _ enc_l, .Str _ enc_r _ => enc_l == enc_r
  | _, _ => false

/-- Modelled from the spec: `typesystem::is_same_type_class` is not under
`src/`.  Sections 4.2 steps 4-5 speak of two types being of "the same type
class"; modelled as agreement of the type-description variant. -/
def is_same_type_class
    (left_type right_type : DataTypeInformation) (_index : Index) : Bool :=
  same_discriminant left_type right_type

/-- `is_valid_string_to_char_assignment` (statement.rs lines 579-601):
strings with length 1 can be assigned to characters; a longer string on a
character target pushes a syntax-error diagnostic and rejects. -/
def is_valid_string_to_char_assignment
    (left_type right_type : DataTypeInformation) (right : AstStatement) :
    List Diagnostic × Bool :=
  if is_compatible_char_and_string left_type right_type then
    match right with
    | .LiteralString value _ =>
        if value.length == 1 then ([], true)
        else
          ([Diagnostic.syn_error
              ("Value: \x27" ++ value ++ "\x27 exceeds length for type: "
                ++ left_type.get_name)],
            false)
    | _ => ([], false)
  else ([], false)

/-- `is_invalid_pointer_assignment` (statement.rs lines 603-640).  Returns
the pushed diagnostics together with the boolean result. -/
def is_invalid_pointer_assignment
    (left_type right_type : DataTypeInformation) (index : Index) :
    List Diagnostic × Bool :=
  if left_type.is_pointer && right_type.is_pointer then
    ([], !(is_same_type_class left_type right_type index))
  else if right_type.is_pointer && !left_type.is_pointer
      && index.get_size_in_bits left_type < POINTER_SIZE then
    ([Diagnostic.incompatible_type_size left_type.get_name
        (index.get_size_in_bits left_type) "hold a"],
      true)
  else if left_type.is_pointer && !right_type.is_pointer
      && index.get_size_in_bits right_type < POINTER_SIZE then
    ([Diagnostic.incompatible_type_size right_type.get_name
        (index.get_size_in_bits right_type) "to be stored in a"],
      true)
  else ([], false)

/-- `is_invalid_char_assignment` (statement.rs lines 642-650): `CHAR` to
`WCHAR` or vice versa is rejected. -/
def is_invalid_char_assignment
    (left_type right_type : DataTypeInformation) : Bool :=
  (left_type.is_character && right_type.is_character)
    && left_type.get_name != right_type.get_name

/-- `is_aggregate_to_none_aggregate_assignment` (statement.rs
lines 652-656). -/
def is_aggregate_to_none_aggregate_assignment
    (left_type right_type : DataType) : Bool :=
  xor left_type.is_aggregate_type right_type.is_aggregate_type

/-- `is_aggregate_type_missmatch` (statement.rs lines 658-667). -/
def is_aggregate_type_missmatch
    (left_type right_type : DataType) (index : Index) : Bool :=
  (left_type.is_aggregate_type && right_type.is_aggregate_type)
    && !(is_same_type_class left_type.info right_type.info index)

/-- `is_valid_assignment` (statement.rs lines 543-576).  The source pushes
diagnostics while evaluating; the pushed list is returned alongside the
boolean.  Note the source combines the four disqualifiers with
non-short-circuiting `|`, so the pointer check's diagnostics are produced
whenever the string-to-char allowance did not fire. -/
def is_valid_assignment
    (left_type right_type : DataType) (right : AstStatement) (index : Index) :
    List Diagnostic × Bool :=
  let s := is_valid_string_to_char_assignment left_type.info right_type.info right
  if s.2 then (s.1, true)
  else
    let p := is_invalid_pointer_assignment left_type.info right_type.info index
    if p.2 || is_invalid_char_assignment left_type.info right_type.info
        || is_aggregate_to_none_aggregate_assignment left_type right_type
        || is_aggregate_type_missmatch left_type right_type index then
      (s.1 ++ p.1, false)
    else (s.1 ++ p.1, true)

/-- `validate_assignment_type_sizes` (statement.rs lines 823-839): warn on
implicit downcasts. -/
def validate_assignment_type_sizes
    (ctx : ValidationContext) (left right : DataType) : List Diagnostic :=
  if ctx.index.get_size left.info < ctx.index.get_size right.info then
    [Diagnostic.implicit_downcast left.get_name right.get_name]
  else []

/-- The left-hand-side part of `validate_assignment` (statement.rs
lines 496-514): constant-target check, then L-value check. -/
def assignment_left_diags
    (ctx : ValidationContext) (left : AstStatement) : List Diagnostic :=
  (match ctx.annots.get left with
    | some (.Variable qualified_name _ constant _) =>
        if constant then [Diagnostic.cannot_assign_to_constant qualified_name]
        else []
    | _ => []) ++
  (if !(can_be_assigned_to left) then [Diagnostic.reference_expected] else [])

/-- The pointer auto-deref normalization at the top of the type-checking
part of `validate_assignment` (statement.rs lines 519-527): an auto-deref
pointer hint is replaced by its inner type. -/
def auto_deref_left (ctx : ValidationContext) (left_type0 : DataType) : DataType :=
  match left_type0.info with
  | .Pointer _ inner_type_name true =>
      ctx.index.get_effective_type_or_void_by_name inner_type_name
  | _ => left_type0

/-- The type-checking part of `validate_assignment` (statement.rs
lines 516-540): hint-versus-inferred-type compatibility, the specific
legality rules and the downcast warning.  The `||` in the source
short-circuits, so `is_valid_assignment` (and its pushes) only runs when
the broad compatibility check passed. -/
def assignment_type_diags
    (ctx : ValidationContext) (right : AstStatement) : List Diagnostic :=
  match ctx.annots.get_type right, ctx.annots.get_type_hint right with
  | some right_type, some left_type0 =>
      let left_type := auto_deref_left ctx left_type0
      if !(is_compatible_with_type left_type right_type) then
        [Diagnostic.invalid_assignment right_type.info.get_name
          left_type.info.get_name]
      else
        let r := is_valid_assignment left_type right_type right ctx.index
        if !r.2 then
          r.1 ++ [Diagnostic.invalid_assignment right_type.info.get_name
            left_type.info.get_name]
        else
          r.1 ++ (if !(is_literal right) then
            validate_assignment_type_sizes ctx left_type right_type
          else [])
  | _, _ => []

/-- `validate_assignment` (statement.rs lines 489-541). -/
def validate_assignment
    (ctx : ValidationContext) (right : AstStatement)
    (left : Option AstStatement) : List Diagnostic :=
  (match left with
    | some l => assignment_left_diags ctx l
    | none => []) ++
  assignment_type_diags ctx right

/-- `validate_call_by_ref` (statement.rs lines 465-487). -/
def validate_call_by_ref
    (param : VariableIndexEntry) (arg : AstStatement) : List Diagnostic :=
  let ty := param.variable_type.get_variable_type
  if !(ty == VariableType.Output || ty == VariableType.InOut) then []
  else if can_be_assigned_to arg then []
  else
    match arg with
    | .EmptyStatement =>
        if ty == VariableType.Output then []
        else [Diagnostic.invalid_argument_type param.name ty]
    | .Assignment _ right => validate_call_by_ref param right
    | .OutputAssignment _ right => validate_call_by_ref param right
    | _ => [Diagnostic.invalid_argument_type param.name ty]

/-- Modelled from the spec: `get_equals_function_name_for`
(`typesystem.rs`, not under `src/`).  Section 4.7: each comparison on a
non-numerical type is backed by a user-defined compare function named
after the type; only the three base comparisons have one (the other
relational operators fan out, section 4.7). -/
def get_equals_function_name_for
    (type_name : String) (op : Operator) : Option String :=
  match op with
  | .Equal => some (type_name ++ "_EQUAL")
  | .Less => some (type_name ++ "_LESS")
  | .Greater => some (type_name ++ "_GREATER")
  | _ => none

/-- `compare_function_exists` (statement.rs lines 398-440): the compare
function must exist with exactly two by-value inputs of the compared type
and a `BOOL` return. -/
def compare_function_exists
    (ctx : ValidationContext) (type_name : String) (op : Operator) : Bool :=
  match get_equals_function_name_for type_name op with
  | none => false
  | some function_name =>
      match ctx.index.find_pou_implementation function_name with
      | none => false
      | some impl_type_name =>
          match ctx.index.get_pou_members impl_type_name with
          | [e1, e2, e3] =>
              match e1.variable_type, e2.variable_type, e3.variable_type with
              | .ByVal .Input, .ByVal .Input, .ByVal .Return =>
                  let t1 := ((ctx.index.get_effective_type_or_void_by_name
                    e1.data_type_name).info).get_name
                  let t2 := ((ctx.index.get_effective_type_or_void_by_name
                    e2.data_type_name).info).get_name
                  t1 == type_name && t2 == type_name
                    && e3.data_type_name == BOOL_TYPE
              | _, _, _ => false
          | _ => false

/-- `validate_binary_expression` (statement.rs lines 366-396): same-variant
non-numerical, non-pointer operands compared without a user-defined
compare function produce `missing_compare_function`. -/
def validate_binary_expression
    (ctx : ValidationContext) (operator : Operator)
    (left right : AstStatement) : List Diagnostic :=
  let left_type := (ctx.annots.get_type_or_void left).info
  let right_type := (ctx.annots.get_type_or_void right).info
  let is_num := (ctx.index.find_intrinsic_type left_type).is_numerical
  if same_discriminant left_type right_type
      && !(is_num || left_type.is_pointer) then
    if operator.is_comparison_operator
        && !(compare_function_exists ctx left_type.get_name operator) then
      [Diagnostic.missing_compare_function
        ((get_equals_function_name_for left_type.get_name operator).getD "")
        left_type.get_name]
    else []
  else []

/-- `visit_binary_expression` (statement.rs lines 338-364): the operator
fan-out.  `<>` validates as `=`; `>=` validates `>` then `=`; `<=`
validates `<` then `=`; every other operator validates once. -/
def visit_binary_expression
    (ctx : ValidationContext) (operator : Operator)
    (left right : AstStatement) : List Diagnostic :=
  match operator with
  | .NotEqual => validate_binary_expression ctx .Equal left right
  | .GreaterOrEqual =>
      validate_binary_expression ctx .Greater left right
        ++ validate_binary_expression ctx .Equal left right
  | .LessOrEqual =>
      validate_binary_expression ctx .Less left right
        ++ validate_binary_expression ctx .Equal left right
  | _ => validate_binary_expression ctx operator left right

/-- `validate_type_nature` (statement.rs lines 789-821). -/
def validate_type_nature
    (ctx : ValidationContext) (statement : AstStatement) : List Diagnostic :=
  match (ctx.annots.get_type_hint statement).orElse
      (fun _ => ctx.annots.get_type statement) with
  | none => []
  | some type_hint =>
      match type_hint.info with
      | .Generic _ generic_symbol nature =>
          [Diagnostic.unresolved_generic_type generic_symbol (nature_name nature)]
      | _ =>
          match ctx.annots.get_type statement,
              ctx.annots.get_generic_nature statement with
          | some actual_type, some generic_nature =>
              if !(actual_type.has_nature generic_nature
                  || (type_hint.is_real && actual_type.is_numerical)) then
                [Diagnostic.invalid_type_nature actual_type.get_name
                  (nature_name generic_nature)]
              else []
          | _, _ => []

/-- Modelled from the spec: `DirectAccessType::is_compatible` (`ast.rs`,
not under `src/`).  Section 4.5: the access width must fit within the
target type (`%W` on a `BYTE` fails). -/
def DirectAccessType.is_compatible
    (t : DirectAccessType) (target : DataTypeInformation) (index : Index) :
    Bool :=
  t.get_bit_width < index.get_size_in_bits target

/-- Modelled from the spec: `DirectAccessType::is_in_range` (`ast.rs`, not
under `src/`).  Section 4.5: a literal index must lie within
`[0, host_bits / access_bits)`. -/
def DirectAccessType.is_in_range
    (t : DirectAccessType) (value : Nat) (target : DataTypeInformation)
    (index : Index) : Bool :=
  value < index.get_size_in_bits target / t.get_bit_width

/-- `validate_access_index` (statement.rs lines 224-254).  A literal
integer index is range-checked; a reference index must be of integer type;
any other index shape hits `unreachable!()`, modelled as `none`. -/
def validate_access_index
    (ctx : ValidationContext) (access_index : AstStatement)
    (access_type : DirectAccessType) (target_type : DataTypeInformation) :
    Option (List Diagnostic) :=
  match access_index with
  | .LiteralInteger value =>
      let v : Nat := if 0 ≤ value ∧ value < 2 ^ 64 then value.toNat else 0
      some (if !(access_type.is_in_range v target_type ctx.index) then
        [Diagnostic.incompatible_directaccess_range access_type.repr_str
          target_type.get_name]
      else [])
  | .Reference _ =>
      let ref_type := ctx.annots.get_type_or_void access_index
      some (if !(ref_type.info.is_int) then
        [Diagnostic.incompatible_directaccess_variable ref_type.get_name]
      else [])
  | _ => none

/-- `validate_qualified_reference` (statement.rs lines 193-222): the
right-most direct-access tail of a qualified reference.  Propagates the
possible panic of `validate_access_index`. -/
def validate_qualified_reference
    (ctx : ValidationContext) (elements : List AstStatement) :
    Option (List Diagnostic) :=
  match elements.reverse with
  | .DirectAccess access index :: reference :: _ =>
      let target_type := (ctx.annots.get_type_or_void reference).info
      if target_type.is_int then
        if !(access.is_compatible target_type ctx.index) then
          some [Diagnostic.incompatible_directaccess access.repr_str
            access.get_bit_width]
        else validate_access_index ctx index access target_type
      else
        some [Diagnostic.incompatible_directaccess access.repr_str
          access.get_bit_width]
  | _ => some []

/-- Modelled from the spec: `get_implicit_call_parameter` lives in the
codegen expression generator, which is not under `src/`.  Section 4.3:
an explicit argument `name := value` / `name => value` resolves to the
declared parameter's ordinal (failing on an unknown name); any other
argument is implicit (positional) at the running index. -/
def get_implicit_call_parameter
    (p : AstStatement) (declared : List VariableIndexEntry) (i : Nat) :
    Except Unit (Nat × AstStatement × Bool) :=
  match p with
  | .Assignment (.Reference name) right =>
      match declared.findIdx? (fun d => d.name == name) with
      | some loc => .ok (loc, right, false)
      | none => .error ()
  | .OutputAssignment (.Reference name) right =>
      match declared.findIdx? (fun d => d.name == name) with
      | some loc => .ok (loc, right, false)
      | none => .error ()
  | .Assignment _ _ => .error ()
  | .OutputAssignment _ _ => .error ()
  | _ => .ok (i, p, true)

/-- The per-argument loop of `validate_call` (statement.rs lines 685-713),
parameterised over the recursive `visit_statement` so the mutual knot
stays explicit.  Returns the diagnostics in push order together with the
recorded slot indices (`passed_params_idx`). -/
def validate_call_parameters
    (visit : AstStatement → List Diagnostic) (ctx : ValidationContext)
    (declared : List VariableIndexEntry) :
    List AstStatement → Nat → List Nat → Bool → List Diagnostic × List Nat
  | [], _, idxs, _ => ([], idxs)
  | p :: rest, i, idxs, are_implicit =>
      match get_implicit_call_parameter p declared i with
      | .ok (location_in_parent, right, is_implicit) =>
          let d1 := match declared.get? location_in_parent with
            | some left => validate_call_by_ref left p
            | none => []
          let d2 := if is_implicit then validate_assignment ctx right none else []
          let d3 :=
            if i == 0 then []
            else if are_implicit != is_implicit then
              [Diagnostic.invalid_parameter_type]
            else []
          let mode := if i == 0 then is_implicit else are_implicit
          let r := validate_call_parameters visit ctx declared rest (i + 1)
            (idxs ++ [location_in_parent]) mode
          (d1 ++ d2 ++ d3 ++ visit p ++ r.1, r.2)
      | .error _ =>
          let r := validate_call_parameters visit ctx declared rest (i + 1)
            idxs are_implicit
          (visit p ++ r.1, r.2)

/-- The post-loop InOut conformance check of `validate_call`
(statement.rs lines 716-731): for a function block or program, every
declared `InOut` slot must appear among the recorded slot indices. -/
def validate_call_inout_check
    (pou : PouIndexEntry) (declared : List VariableIndexEntry)
    (passed_params_idx : List Nat) : List Diagnostic :=
  match pou with
  | .FunctionBlock _ | .Program _ =>
      let inouts := declared.filter
        (fun p => p.get_variable_type == VariableType.InOut)
      if inouts.isEmpty then []
      else inouts.foldr
        (fun p acc =>
          (if passed_params_idx.contains p.location_in_parent then []
            else [Diagnostic.missing_inout_parameter p.name]) ++ acc)
        []
  | _ => []

/-- `validate_call` (statement.rs lines 669-738), parameterised over the
recursive `visit_statement`. -/
def validate_call
    (visit : AstStatement → List Diagnostic) (ctx : ValidationContext)
    (operator : AstStatement) (parameters : Option AstStatement) :
    List Diagnostic :=
  visit operator ++
  match ctx.find_pou operator with
  | some pou =>
      let declared := ctx.index.get_declared_parameters pou.get_name
      let passed := (parameters.map flatten_expression_list).getD []
      let r := validate_call_parameters visit ctx declared passed 0 [] true
      r.1 ++ validate_call_inout_check pou declared r.2
  | none =>
      match parameters with
      | some s => visit s
      | none => []

/-- The per-condition constant-evaluation step of `validate_case_statement`
(statement.rs lines 760-778): evaluator failure is diagnosed; an integer
value is tracked for duplicates; other values are dropped.  Returns the
pushed diagnostics and the updated set of seen values. -/
def eval_case_condition
    (ctx : ValidationContext) (condition : AstStatement) (seen : List Int) :
    List Diagnostic × List Int :=
  match ctx.const_eval condition with
  | .error err => ([Diagnostic.non_constant_case_condition err], seen)
  | .ok v =>
      match v with
      | some (.LiteralInteger value) =>
          if seen.contains value then
            ([Diagnostic.duplicate_case_condition value], seen)
          else ([], value :: seen)
      | _ => ([], seen)

/-- A conditional block of a case statement (`ConditionalBlock` in
`ast.rs`). -/
structure ConditionalBlock where
  condition : AstStatement
  body : List AstStatement

/-- The per-block loop of `validate_case_statement` (statement.rs
lines 750-782), parameterised over the recursive `visit_statement` and
threading the set of seen values. -/
def validate_case_blocks
    (visit : AstStatement → List Diagnostic) (ctx : ValidationContext) :
    List ConditionalBlock → List Int → List Diagnostic
  | [], _ => []
  | b :: rest, seen =>
      let invalid_d :=
        match b.condition with
        | .Assignment _ _ => [Diagnostic.invalid_case_condition]
        | .CallStatement _ _ => [Diagnostic.invalid_case_condition]
        | _ => []
      let e := eval_case_condition ctx b.condition seen
      invalid_d ++ e.1 ++ visit b.condition
        ++ (b.body.map visit).flatten
        ++ validate_case_blocks visit ctx rest e.2

/-- `validate_case_statement` (statement.rs lines 741-785), parameterised
over the recursive `visit_statement`. -/
def validate_case_statement
    (visit : AstStatement → List Diagnostic) (ctx : ValidationContext)
    (selector : AstStatement) (case_blocks : List ConditionalBlock)
    (else_block : List AstStatement) : List Diagnostic :=
  visit selector ++ validate_case_blocks visit ctx case_blocks []
    ++ (else_block.map visit).flatten

/-! ## Diagnostic-kind predicates and counting helpers -/

/-- Is the diagnostic a `cannot_assign_to_constant`? -/
def Diagnostic.is_cannot_assign : Diagnostic → Bool
  | .cannot_assign_to_constant _ => true
  | _ => false

/-- Is the diagnostic a `reference_expected`? -/
def Diagnostic.is_reference_expected : Diagnostic → Bool
  | .reference_expected => true
  | _ => false

/-- Is the diagnostic a syntax error? -/
def Diagnostic.is_syn_error : Diagnostic → Bool
  | .syn_error _ => true
  | _ => false

/-- Is the diagnostic an `invalid_assignment`? -/
def Diagnostic.is_invalid_assignment : Diagnostic → Bool
  | .invalid_assignment _ _ => true
  | _ => false

/-- Is the diagnostic one of the four kinds the hint-versus-type part of
`validate_assignment` can produce? -/
def Diagnostic.is_type_check_kind : Diagnostic → Bool
  | .invalid_assignment _ _ => true
  | .syn_error _ => true
  | .incompatible_type_size _ _ _ => true
  | .implicit_downcast _ _ => true
  | _ => false

/-- Is the diagnostic a `missing_inout_parameter` for the given name? -/
def Diagnostic.is_missing_inout_for (name : String) : Diagnostic → Bool
  | .missing_inout_parameter n => n == name
  | _ => false

/-- Is the diagnostic a `duplicate_case_condition` for the given value? -/
def Diagnostic.is_duplicate_for (value : Int) : Diagnostic → Bool
  | .duplicate_case_condition v => v == value
  | _ => false

/-- Is the diagnostic a `non_constant_case_condition`? -/
def Diagnostic.is_non_constant_case : Diagnostic → Bool
  | .non_constant_case_condition _ => true
  | _ => false

/-- How many diagnostics of a list satisfy the given predicate. -/
def count_diag (p : Diagnostic → Bool) (l : List Diagnostic) : Nat :=
  (l.filter p).length

/-! ## Concrete instances used by witnesses and counterexamples -/

/-- A concrete size oracle: integers and floats report their declared
width, everything else reports the pointer width. -/
def size_in_bits0 : DataTypeInformation → Nat
  | .Integer _ _ s => s
  | .Float _ s => s
  | _ => 64

/-- A concrete, minimal index oracle. -/
def index0 : Index :=
  ⟨fun _ => void_type, fun _ => none, fun _ => [], fun _ => [],
    fun i => i, size_in_bits0, size_in_bits0⟩

/-- The `CHAR` type. -/
def char_type : DataType := ⟨"CHAR", .Char "CHAR" .utf8, .Char⟩

/-- The `STRING` type. -/
def string_type : DataType := ⟨"STRING", .Str "STRING" .utf8 81, .String⟩

/-- The `SINT` type (8-bit signed integer). -/
def sint_type : DataType := ⟨"SINT", .Integer "SINT" true 8, .Signed⟩

/-- The `REAL` type (32-bit float). -/
def real_type : DataType := ⟨"REAL", .Float "REAL" 32, .Real⟩

/-- A pointer-to-`INT` type. -/
def ptr_int_type : DataType :=
  ⟨"REF_TO INT", .Pointer "REF_TO INT" "INT" false, .Any⟩

/-- Annotations for the `a := 'ab'` scenario: the string literal is
inferred as `STRING` and hinted at `CHAR`; the reference is a non-constant
local variable. -/
def annot_char : AnnotMap :=
  ⟨fun s => match s with
      | .Reference _ => some (.Variable "prg.a" "CHAR" false .Local)
      | _ => none,
    fun s => match s with
      | .LiteralString _ _ => some string_type
      | _ => none,
    fun s => match s with
      | .LiteralString _ _ => some char_type
      | _ => none,
    fun _ => true,
    fun _ => none⟩

/-- Context for the `a := 'ab'` scenario. -/
def ctx_char : ValidationContext :=
  ⟨index0, annot_char, none, fun _ => none, fun _ => .error "unresolved"⟩

/-- Annotations for the constant-assignment scenario `k := 2`. -/
def annot_const : AnnotMap :=
  ⟨fun s => match s with
      | .Reference _ => some (.Variable "prg.k" "INT" true .Local)
      | _ => none,
    fun _ => none, fun _ => none, fun _ => true, fun _ => none⟩

/-- Context for the constant-assignment scenario. -/
def ctx_const : ValidationContext :=
  ⟨index0, annot_const, none, fun _ => none, fun _ => .error "unresolved"⟩

/-- Is the type description still a generic placeholder? -/
def DataTypeInformation.is_generic : DataTypeInformation → Bool
  | .Generic _ _ _ => true
  | _ => false

/-- Annotations for the type-nature scenario: a reference inferred and
hinted as `REAL` while carrying an `Int` generic-nature expectation. -/
def annot_nature : AnnotMap :=
  ⟨fun _ => none,
    fun s => match s with
      | .Reference _ => some real_type
      | _ => none,
    fun s => match s with
      | .Reference _ => some real_type
      | _ => none,
    fun _ => true,
    fun s => match s with
      | .Reference _ => some TypeNature.Int
      | _ => none⟩

/-- Context for the type-nature scenario. -/
def ctx_nature : ValidationContext :=
  ⟨index0, annot_nature, none, fun _ => none, fun _ => .error "unresolved"⟩

/-- How many of the given case conditions the constant evaluator reduces
to the integer literal `v`. -/
def count_int_eval (ctx : ValidationContext) (v : Int)
    (cs : List AstStatement) : Nat :=
  (cs.filter (fun c => match ctx.const_eval c with
    | .ok (some (.LiteralInteger w)) => w == v
    | _ => false)).length

/-- Does the constant evaluator fail on this condition? -/
def const_eval_fails (ctx : ValidationContext) (c : AstStatement) : Bool :=
  match ctx.const_eval c with
  | .error _ => true
  | .ok _ => false

/-- Context for the case-statement scenario: integer literals evaluate to
themselves, references fail, everything else evaluates to no value. -/
def case_ctx : ValidationContext :=
  ⟨index0, annot_const, none, fun _ => none,
    fun s => match s with
      | .LiteralInteger v => .ok (some (.LiteralInteger v))
      | .Reference _ => .error "cannot resolve"
      | _ => .ok none⟩

theorem count_diag_nil (p : Diagnostic → Bool) : count_diag p [] = 0 := rfl

theorem count_diag_append (p : Diagnostic → Bool) (a b : List Diagnostic) :
    count_diag p (a ++ b) = count_diag p a + count_diag p b := by
  simp [count_diag, List.filter_append]

theorem count_diag_eq_zero (p : Diagnostic → Bool) (l : List Diagnostic)
    (h : ∀ d ∈ l, p d = false) : count_diag p l = 0 := by
  simp [count_diag, List.length_eq_zero, List.filter_eq_nil_iff]
  intro d hd
  simp [h d hd]

/-! ## Shared shape lemmas about the assignment rules -/

theorem string_to_char_diags_shape
    (lt rt : DataTypeInformation) (right : AstStatement) :
    ∀ d ∈ (is_valid_string_to_char_assignment lt rt right).1,
      ∃ m, d = Diagnostic.syn_error m := by
  intro d hd
  unfold is_valid_string_to_char_assignment at hd
  split at hd
  · split at hd
    · split at hd
      · simp at hd
      · simp at hd
        exact ⟨_, hd⟩
    · simp at hd
  · simp at hd

theorem pointer_diags_shape
    (lt rt : DataTypeInformation) (index : Index) :
    ∀ d ∈ (is_invalid_pointer_assignment lt rt index).1,
      ∃ n s t, d = Diagnostic.incompatible_type_size n s t := by
  intro d hd
  unfold is_invalid_pointer_assignment at hd
  split at hd
  · simp at hd
  · split at hd
    · simp at hd
      exact ⟨_, _, _, hd⟩
    · split at hd
      · simp at hd
        exact ⟨_, _, _, hd⟩
      · simp at hd

theorem is_valid_assignment_diags_shape
    (lt rt : DataType) (right : AstStatement) (index : Index) :
    ∀ d ∈ (is_valid_assignment lt rt right index).1,
      d.is_type_check_kind = true := by
  intro d hd
  unfold is_valid_assignment at hd
  dsimp only at hd
  split at hd
  · obtain ⟨m, rfl⟩ := string_to_char_diags_shape lt.info rt.info right d hd
    rfl
  · have key : d ∈ (is_valid_string_to_char_assignment lt.info rt.info right).1
        ++ (is_invalid_pointer_assignment lt.info rt.info index).1 := by
      split at hd <;> exact hd
    simp only [List.mem_append] at key
    rcases key with hk | hk
    · obtain ⟨m, rfl⟩ := string_to_char_diags_shape lt.info rt.info right d hk
      rfl
    · obtain ⟨n, s, t, rfl⟩ := pointer_diags_shape lt.info rt.info index d hk
      rfl

theorem validate_assignment_type_sizes_shape
    (ctx : ValidationContext) (left right : DataType) :
    ∀ d ∈ validate_assignment_type_sizes ctx left right,
      d.is_type_check_kind = true := by
  intro d hd
  unfold validate_assignment_type_sizes at hd
  split at hd
  · simp at hd
    subst hd
    rfl
  · simp at hd

theorem assignment_type_diags_shape
    (ctx : ValidationContext) (right : AstStatement) :
    ∀ d ∈ assignment_type_diags ctx right, d.is_type_check_kind = true := by
  intro d hd
  unfold assignment_type_diags at hd
  split at hd
  case _ right_type left_type0 =>
    dsimp only at hd
    split at hd
    · simp at hd
      subst hd
      rfl
    · split at hd
      · simp only [List.mem_append] at hd
        rcases hd with hd | hd
        · exact is_valid_assignment_diags_shape _ _ _ _ d hd
        · simp at hd
          subst hd
          rfl
      · simp only [List.mem_append] at hd
        rcases hd with hd | hd
        · exact is_valid_assignment_diags_shape _ _ _ _ d hd
        · split at hd
          · exact validate_assignment_type_sizes_shape _ _ _ d hd
          · simp at hd
  case _ => simp at hd

theorem assignment_left_diags_shape
    (ctx : ValidationContext) (left : AstStatement) :
    ∀ d ∈ assignment_left_diags ctx left,
      d.is_cannot_assign = true ∨ d.is_reference_expected = true := by
  intro d hd
  unfold assignment_left_diags at hd
  simp only [List.mem_append] at hd
  rcases hd with hd | hd
  · split at hd
    · split at hd
      · simp at hd
        subst hd
        exact Or.inl rfl
      · simp at hd
    · simp at hd
  · split at hd
    · simp at hd
      subst hd
      exact Or.inr rfl
    · simp at hd

/-! ## Claim C10 -/

/-- Claim C10: for every implicit (positional) call-parameter binding,
assignment validation is invoked with no left-hand expression
(statement.rs line 700 passes `None`), so it never emits
`cannot_assign_to_constant` or `reference_expected` for that binding; only
the type-compatibility, pointer-size, string-length and downcast checks,
driven by the argument's type hint versus its inferred type, can fire. -/
theorem c10_implicit_binding_no_left_checks
    (ctx : ValidationContext) (right : AstStatement) :
    ∀ d ∈ validate_assignment ctx right none,
      d.is_type_check_kind = true
      ∧ d.is_cannot_assign = false
      ∧ d.is_reference_expected = false := by
  intro d hd
  unfold validate_assignment at hd
  simp only [List.nil_append] at hd
  have hk := assignment_type_diags_shape ctx right d hd
  refine ⟨hk, ?_, ?_⟩ <;>
    cases d <;> first
      | rfl
      | exact absurd hk (by simp [Diagnostic.is_type_check_kind])

/-- Witness for C10 at a concrete implicit binding whose validation does
emit a diagnostic. -/
theorem c10_witness :
    (Diagnostic.invalid_assignment "STRING" "CHAR").is_type_check_kind = true
    ∧ (Diagnostic.invalid_assignment "STRING" "CHAR").is_cannot_assign = false
    ∧ (Diagnostic.invalid_assignment "STRING" "CHAR").is_reference_expected
        = false :=
  c10_implicit_binding_no_left_checks ctx_char (.LiteralString "ab" false)
    (Diagnostic.invalid_assignment "STRING" "CHAR") (by decide)

/-! ## Claim C3 -/

/-- Claim C3: for every assignment whose left-hand side is annotated as a
`Variable` with `constant = true`, exactly one `cannot_assign_to_constant`
diagnostic carrying the variable's qualified name is emitted for that
statement; when the left annotation is not a constant variable, none is
emitted (statement.rs lines 496-507). -/
theorem c3_constant_assignment
    (ctx : ValidationContext) (left right : AstStatement) :
    (∀ qn rt vt, ctx.annots.get left = some (.Variable qn rt true vt) →
      count_diag Diagnostic.is_cannot_assign
          (validate_assignment ctx right (some left)) = 1
      ∧ Diagnostic.cannot_assign_to_constant qn
          ∈ validate_assignment ctx right (some left))
    ∧ ((∀ qn rt vt, ctx.annots.get left ≠ some (.Variable qn rt true vt)) →
      count_diag Diagnostic.is_cannot_assign
          (validate_assignment ctx right (some left)) = 0) := by
  have htype : count_diag Diagnostic.is_cannot_assign
      (assignment_type_diags ctx right) = 0 := by
    apply count_diag_eq_zero
    intro d hd
    have hk := assignment_type_diags_shape ctx right d hd
    cases d <;> first
      | rfl
      | exact absurd hk (by simp [Diagnostic.is_type_check_kind])
  have hlval : count_diag Diagnostic.is_cannot_assign
      (if !(can_be_assigned_to left) then [Diagnostic.reference_expected]
        else []) = 0 := by
    split <;> rfl
  constructor
  · intro qn rt vt hget
    have hleft : assignment_left_diags ctx left
        = [Diagnostic.cannot_assign_to_constant qn]
          ++ (if !(can_be_assigned_to left) then [Diagnostic.reference_expected]
            else []) := by
      unfold assignment_left_diags
      rw [hget]
      rfl
    constructor
    · unfold validate_assignment
      dsimp only
      rw [count_diag_append, htype, hleft, count_diag_append, hlval]
      rfl
    · unfold validate_assignment
      dsimp only
      rw [hleft]
      simp
  · intro hne
    unfold validate_assignment
    dsimp only
    rw [count_diag_append, htype]
    have hleft : count_diag Diagnostic.is_cannot_assign
        (assignment_left_diags ctx left) = 0 := by
      unfold assignment_left_diags
      rw [count_diag_append, hlval]
      cases hget : ctx.annots.get left with
      | none => rfl
      | some a =>
          cases a with
          | Variable qn rt c vt =>
              cases c with
              | true => exact absurd hget (hne qn rt vt)
              | false => rfl
          | Value _ => rfl
          | TypeAnnot _ => rfl
          | ProgramAnnot _ => rfl
          | FunctionAnnot _ _ => rfl
    rw [hleft]

/-- Witness for C3: assigning to the constant `prg.k` produces exactly the
one diagnostic. -/
theorem c3_witness :
    count_diag Diagnostic.is_cannot_assign
        (validate_assignment ctx_const (.LiteralInteger 2)
          (some (.Reference "k"))) = 1
    ∧ Diagnostic.cannot_assign_to_constant "prg.k"
        ∈ validate_assignment ctx_const (.LiteralInteger 2)
          (some (.Reference "k")) :=
  (c3_constant_assignment ctx_const (.Reference "k") (.LiteralInteger 2)).1
    "prg.k" "INT" .Local (by decide)

/-! ## Claim C2 -/

/-- Counterexample to claim C2 as stated.  For `a := 'ab'` on a `CHAR`
target the syntax-error diagnostic is pushed inside `is_valid_assignment`
(statement.rs line 592), which then returns `false`, so
`validate_assignment` (line 532) additionally pushes `invalid_assignment`:
the claim's "no invalid_assignment diagnostic is emitted for that
assignment" is false. -/
theorem c2_counterexample :
    validate_assignment ctx_char (.LiteralString "ab" false)
        (some (.Reference "a"))
      = [Diagnostic.syn_error "Value: \x27ab\x27 exceeds length for type: CHAR",
         Diagnostic.invalid_assignment "STRING" "CHAR"]
    ∧ Diagnostic.invalid_assignment "STRING" "CHAR"
        ∈ validate_assignment ctx_char (.LiteralString "ab" false)
          (some (.Reference "a")) := by
  constructor
  · rfl
  · decide

/-- Claim C2 (amended): for every assignment of a string literal to a
character-typed target (matching encodings), a literal of length 1 is
accepted with no diagnostic from the assignment check; a literal of any
other length produces exactly one syntax_error
`Value: '<v>' exceeds length for type: <T>` AND exactly one
`invalid_assignment` diagnostic for that assignment (the aggregate
mismatch disqualifier still fires after the rejected allowance, so the
generic diagnostic is appended as well, statement.rs lines 529-536). -/
theorem c2_string_to_char_amended
    (ctx : ValidationContext) (left : Option AstStatement) (v : String)
    (w : Bool) (LT RT : DataType) (cn sn : String) (enc : Encoding) (sz : Nat)
    (hT : ctx.annots.get_type (.LiteralString v w) = some RT)
    (hH : ctx.annots.get_type_hint (.LiteralString v w) = some LT)
    (hL : LT.info = .Char cn enc)
    (hR : RT.info = .Str sn enc sz) :
    (v.length = 1 →
      validate_assignment ctx (.LiteralString v w) left
        = (match left with
            | some l => assignment_left_diags ctx l
            | none => []))
    ∧ (v.length ≠ 1 →
      assignment_type_diags ctx (.LiteralString v w)
        = [Diagnostic.syn_error
             ("Value: \x27" ++ v ++ "\x27 exceeds length for type: " ++ cn),
           Diagnostic.invalid_assignment sn cn]
      ∧ count_diag Diagnostic.is_syn_error
          (validate_assignment ctx (.LiteralString v w) left) = 1
      ∧ count_diag Diagnostic.is_invalid_assignment
          (validate_assignment ctx (.LiteralString v w) left) = 1) := by
  have had : auto_deref_left ctx LT = LT := by
    unfold auto_deref_left
    rw [hL]
  have hcs : is_compatible_char_and_string LT.info RT.info = true := by
    rw [hL, hR]
    simp [is_compatible_char_and_string]
  have hleft0 : ∀ l : AstStatement,
      count_diag Diagnostic.is_syn_error (assignment_left_diags ctx l) = 0
      ∧ count_diag Diagnostic.is_invalid_assignment
          (assignment_left_diags ctx l) = 0 := by
    intro l
    constructor <;>
      · apply count_diag_eq_zero
        intro d hd
        rcases assignment_left_diags_shape ctx l d hd with h | h <;>
          cases d <;> simp_all [Diagnostic.is_cannot_assign,
            Diagnostic.is_reference_expected, Diagnostic.is_syn_error,
            Diagnostic.is_invalid_assignment]
  constructor
  · intro h1
    have hs1 : is_valid_string_to_char_assignment LT.info RT.info
        (.LiteralString v w) = ([], true) := by
      unfold is_valid_string_to_char_assignment
      simp [hcs, h1]
    have his : is_valid_assignment LT RT (.LiteralString v w) ctx.index
        = ([], true) := by
      unfold is_valid_assignment
      rw [hs1]
      rfl
    have htd : assignment_type_diags ctx (.LiteralString v w) = [] := by
      unfold assignment_type_diags
      rw [hT, hH]
      dsimp only
      rw [had, his]
      simp [is_compatible_with_type, is_literal]
    unfold validate_assignment
    rw [htd]
    simp
  · intro h2
    have hs2 : is_valid_string_to_char_assignment LT.info RT.info
        (.LiteralString v w)
        = ([Diagnostic.syn_error
             ("Value: \x27" ++ v ++ "\x27 exceeds length for type: " ++ cn)],
           false) := by
      unfold is_valid_string_to_char_assignment
      rw [hcs]
      simp [h2, hL, DataTypeInformation.get_name]
    have hp : is_invalid_pointer_assignment LT.info RT.info ctx.index
        = ([], false) := by
      unfold is_invalid_pointer_assignment
      rw [hL, hR]
      simp [DataTypeInformation.is_pointer]
    have hchar : is_invalid_char_assignment LT.info RT.info = false := by
      unfold is_invalid_char_assignment
      rw [hL, hR]
      simp [DataTypeInformation.is_character]
    have hxor : is_aggregate_to_none_aggregate_assignment LT RT = true := by
      unfold is_aggregate_to_none_aggregate_assignment
      unfold DataType.is_aggregate_type
      rw [hL, hR]
      simp [DataTypeInformation.is_aggregate]
    have his : is_valid_assignment LT RT (.LiteralString v w) ctx.index
        = ([Diagnostic.syn_error
             ("Value: \x27" ++ v ++ "\x27 exceeds length for type: " ++ cn)],
           false) := by
      unfold is_valid_assignment
      rw [hs2]
      dsimp only
      rw [hp, hchar, hxor]
      simp
    have htd : assignment_type_diags ctx (.LiteralString v w)
        = [Diagnostic.syn_error
             ("Value: \x27" ++ v ++ "\x27 exceeds length for type: " ++ cn),
           Diagnostic.invalid_assignment sn cn] := by
      unfold assignment_type_diags
      rw [hT, hH]
      dsimp only
      rw [had, his]
      simp [is_compatible_with_type, hL, hR, DataTypeInformation.get_name]
    refine ⟨htd, ?_, ?_⟩ <;>
      · unfold validate_assignment
        rw [count_diag_append, htd]
        cases left with
        | none => simp [count_diag, Diagnostic.is_syn_error,
            Diagnostic.is_invalid_assignment]
        | some l =>
            have h0 := hleft0 l
            dsimp only
            first
              | rw [h0.1]
              | rw [h0.2]
            simp [count_diag, Diagnostic.is_syn_error,
              Diagnostic.is_invalid_assignment]

/-- Witness for the amended C2 at the concrete assignment `a := 'ab'`. -/
theorem c2_amended_witness :
    assignment_type_diags ctx_char (.LiteralString "ab" false)
      = [Diagnostic.syn_error "Value: \x27ab\x27 exceeds length for type: CHAR",
         Diagnostic.invalid_assignment "STRING" "CHAR"]
    ∧ count_diag Diagnostic.is_syn_error
        (validate_assignment ctx_char (.LiteralString "ab" false)
          (some (.Reference "a"))) = 1
    ∧ count_diag Diagnostic.is_invalid_assignment
        (validate_assignment ctx_char (.LiteralString "ab" false)
          (some (.Reference "a"))) = 1 :=
  (c2_string_to_char_amended ctx_char (some (.Reference "a")) "ab" false
      char_type string_type "CHAR" "STRING" .utf8 81
      rfl rfl rfl rfl).2 (by decide)

/-! ## Claim C4 -/

/-- Claim C4: for an assignment whose target type is a pointer and whose
right-hand type is a non-pointer, an `incompatible_type_size` diagnostic
with the right type's name, its bit width and the text "to be stored in a"
is emitted if and only if the right type's size in bits is strictly below
`POINTER_SIZE` (statement.rs lines 627-638).  Stated both for
`is_invalid_pointer_assignment` itself and, lifted, for the diagnostics of
`validate_assignment` on an annotated assignment with a (non-auto-deref)
pointer hint. -/
theorem c4_pointer_size_rule
    (l r : DataTypeInformation) (index : Index)
    (ctx : ValidationContext) (left : Option AstStatement)
    (right : AstStatement) (LT RT : DataType) (pn inner : String)
    (hlp : l.is_pointer = true) (hrp : r.is_pointer = false) :
    ((index.get_size_in_bits r < POINTER_SIZE →
        is_invalid_pointer_assignment l r index
          = ([Diagnostic.incompatible_type_size r.get_name
              (index.get_size_in_bits r) "to be stored in a"], true))
      ∧ (¬ index.get_size_in_bits r < POINTER_SIZE →
        is_invalid_pointer_assignment l r index = ([], false))
      ∧ (Diagnostic.incompatible_type_size r.get_name
            (index.get_size_in_bits r) "to be stored in a"
          ∈ (is_invalid_pointer_assignment l r index).1
        ↔ index.get_size_in_bits r < POINTER_SIZE))
    ∧ (ctx.annots.get_type right = some RT →
        ctx.annots.get_type_hint right = some LT →
        LT.info = .Pointer pn inner false →
        RT.info.is_pointer = false →
        (Diagnostic.incompatible_type_size RT.info.get_name
            (ctx.index.get_size_in_bits RT.info) "to be stored in a"
          ∈ validate_assignment ctx right left
        ↔ ctx.index.get_size_in_bits RT.info < POINTER_SIZE)) := by
  have hA1 : ∀ (l' r' : DataTypeInformation) (idx : Index),
      l'.is_pointer = true → r'.is_pointer = false →
      idx.get_size_in_bits r' < POINTER_SIZE →
      is_invalid_pointer_assignment l' r' idx
        = ([Diagnostic.incompatible_type_size r'.get_name
            (idx.get_size_in_bits r') "to be stored in a"], true) := by
    intro l' r' idx hl hr hsz
    unfold is_invalid_pointer_assignment
    simp [hl, hr, hsz]
  have hA2 : ∀ (l' r' : DataTypeInformation) (idx : Index),
      l'.is_pointer = true → r'.is_pointer = false →
      ¬ idx.get_size_in_bits r' < POINTER_SIZE →
      is_invalid_pointer_assignment l' r' idx = ([], false) := by
    intro l' r' idx hl hr hsz
    unfold is_invalid_pointer_assignment
    simp [hl, hr, hsz]
  constructor
  · refine ⟨hA1 l r index hlp hrp, hA2 l r index hlp hrp, ?_⟩
    by_cases hsz : index.get_size_in_bits r < POINTER_SIZE
    · rw [hA1 l r index hlp hrp hsz]
      simp [hsz]
    · rw [hA2 l r index hlp hrp hsz]
      simp [hsz]
  · intro hT hH hL hRp
    have had : auto_deref_left ctx LT = LT := by
      unfold auto_deref_left
      rw [hL]
    have hlp' : LT.info.is_pointer = true := by
      rw [hL]
      rfl
    have hcs : is_compatible_char_and_string LT.info RT.info = false := by
      rw [hL]
      unfold is_compatible_char_and_string
      split <;> first | rfl | simp_all
    have hs : is_valid_string_to_char_assignment LT.info RT.info right
        = ([], false) := by
      unfold is_valid_string_to_char_assignment
      rw [hcs]
      simp
    by_cases hsz : ctx.index.get_size_in_bits RT.info < POINTER_SIZE
    · have hp := hA1 LT.info RT.info ctx.index hlp' hRp hsz
      have his : is_valid_assignment LT RT right ctx.index
          = ([Diagnostic.incompatible_type_size RT.info.get_name
              (ctx.index.get_size_in_bits RT.info) "to be stored in a"],
            false) := by
        unfold is_valid_assignment
        dsimp only
        rw [hs, hp]
        simp
      have htd : Diagnostic.incompatible_type_size RT.info.get_name
          (ctx.index.get_size_in_bits RT.info) "to be stored in a"
          ∈ assignment_type_diags ctx right := by
        unfold assignment_type_diags
        rw [hT, hH]
        dsimp only
        rw [had, his]
        simp [is_compatible_with_type]
      simp only [hsz, iff_true]
      unfold validate_assignment
      simp only [List.mem_append]
      exact Or.inr htd
    · have hp := hA2 LT.info RT.info ctx.index hlp' hRp hsz
      have his1 : (is_valid_assignment LT RT right ctx.index).1 = [] := by
        unfold is_valid_assignment
        dsimp only
        rw [hs, hp]
        split <;> first | rfl | (split <;> rfl)
      simp only [hsz, iff_false]
      intro hmem
      unfold validate_assignment at hmem
      simp only [List.mem_append] at hmem
      rcases hmem with hmem | hmem
      · cases left with
        | none => simp at hmem
        | some lstmt =>
            dsimp only at hmem
            rcases assignment_left_diags_shape ctx lstmt _ hmem with h | h <;>
              simp [Diagnostic.is_cannot_assign,
                Diagnostic.is_reference_expected] at h
      · unfold assignment_type_diags at hmem
        rw [hT, hH] at hmem
        dsimp only at hmem
        rw [had] at hmem
        simp only [is_compatible_with_type, Bool.not_true,
          Bool.false_eq_true, if_false] at hmem
        split at hmem
        · rw [his1] at hmem
          simp at hmem
        · rw [his1] at hmem
          simp only [List.nil_append] at hmem
          split at hmem
          · unfold validate_assignment_type_sizes at hmem
            split at hmem <;> simp at hmem
          · simp at hmem

/-- Witness for C4: `REF_TO INT := SINT` (8-bit right-hand side, pointer
width 64) produces the size diagnostic. -/
theorem c4_witness :
    is_invalid_pointer_assignment (.Pointer "REF_TO INT" "INT" false)
        (.Integer "SINT" true 8) index0
      = ([Diagnostic.incompatible_type_size "SINT" 8 "to be stored in a"],
        true) :=
  ((c4_pointer_size_rule (.Pointer "REF_TO INT" "INT" false)
      (.Integer "SINT" true 8) index0 ctx_char none .EmptyStatement
      char_type string_type "p" "INT" rfl rfl).1).1 (by decide)

/-! ## Claim C6 -/

/-- Claim C6: the by-reference argument check (statement.rs lines 465-487)
is only active for `Output`/`InOut` parameters; an assignable argument is
accepted; `EmptyStatement` is accepted for `Output` but rejected for
`InOut`; `Assignment`/`OutputAssignment` arguments recurse on their
right-hand side; every other argument produces `invalid_argument_type`
with the parameter's name and variable type. -/
theorem c6_call_by_ref
    (param : VariableIndexEntry) (arg : AstStatement) :
    (¬(param.variable_type.get_variable_type = VariableType.Output
        ∨ param.variable_type.get_variable_type = VariableType.InOut) →
      validate_call_by_ref param arg = [])
    ∧ (can_be_assigned_to arg = true → validate_call_by_ref param arg = [])
    ∧ (param.variable_type.get_variable_type = VariableType.Output →
        validate_call_by_ref param .EmptyStatement = [])
    ∧ (param.variable_type.get_variable_type = VariableType.InOut →
        validate_call_by_ref param .EmptyStatement
          = [Diagnostic.invalid_argument_type param.name VariableType.InOut])
    ∧ (∀ l r, validate_call_by_ref param (.Assignment l r)
        = validate_call_by_ref param r)
    ∧ (∀ l r, validate_call_by_ref param (.OutputAssignment l r)
        = validate_call_by_ref param r)
    ∧ ((param.variable_type.get_variable_type = VariableType.Output
        ∨ param.variable_type.get_variable_type = VariableType.InOut) →
      can_be_assigned_to arg = false →
      arg ≠ .EmptyStatement →
      (∀ l r, arg ≠ .Assignment l r) →
      (∀ l r, arg ≠ .OutputAssignment l r) →
      validate_call_by_ref param arg
        = [Diagnostic.invalid_argument_type param.name
            param.variable_type.get_variable_type]) := by
  refine ⟨?_, ?_, ?_, ?_, ?_, ?_, ?_⟩
  · intro h
    have hb : (param.variable_type.get_variable_type == VariableType.Output
        || param.variable_type.get_variable_type == VariableType.InOut)
        = false := by
      cases hvt : param.variable_type.get_variable_type <;> simp_all
    unfold validate_call_by_ref
    simp [hb]
  · intro h
    unfold validate_call_by_ref
    simp [h]
  · intro h
    unfold validate_call_by_ref
    simp [h, can_be_assigned_to]
  · intro h
    unfold validate_call_by_ref
    simp [h, can_be_assigned_to]
  · intro l r
    by_cases hb : (param.variable_type.get_variable_type == VariableType.Output
        || param.variable_type.get_variable_type == VariableType.InOut) = true
    · conv_lhs => unfold validate_call_by_ref
      simp [hb, can_be_assigned_to]
    · have hb' : (param.variable_type.get_variable_type == VariableType.Output
          || param.variable_type.get_variable_type == VariableType.InOut)
          = false := by simpa using hb
      conv_lhs => unfold validate_call_by_ref
      conv_rhs => unfold validate_call_by_ref
      simp [hb']
  · intro l r
    by_cases hb : (param.variable_type.get_variable_type == VariableType.Output
        || param.variable_type.get_variable_type == VariableType.InOut) = true
    · conv_lhs => unfold validate_call_by_ref
      simp [hb, can_be_assigned_to]
    · have hb' : (param.variable_type.get_variable_type == VariableType.Output
          || param.variable_type.get_variable_type == VariableType.InOut)
          = false := by simpa using hb
      conv_lhs => unfold validate_call_by_ref
      conv_rhs => unfold validate_call_by_ref
      simp [hb']
  · intro hactive hcba hne hnassign hnout
    have hb : (param.variable_type.get_variable_type == VariableType.Output
        || param.variable_type.get_variable_type == VariableType.InOut)
        = true := by
      rcases hactive with h | h <;> simp [h]
    cases arg <;> first
      | exact absurd rfl hne
      | exact absurd rfl (hnassign _ _)
      | exact absurd rfl (hnout _ _)
      | (simp [can_be_assigned_to] at hcba
         done)
      | (unfold validate_call_by_ref
         simp [hb, can_be_assigned_to])

/-- Witness for C6: an `InOut` parameter with an empty argument is
rejected with `invalid_argument_type`. -/
theorem c6_witness :
    validate_call_by_ref ⟨"y", "fb.y", "INT", .ByRef .InOut, 0, false⟩
        .EmptyStatement
      = [Diagnostic.invalid_argument_type "y" VariableType.InOut] :=
  (c6_call_by_ref ⟨"y", "fb.y", "INT", .ByRef .InOut, 0, false⟩
      .EmptyStatement).2.2.2.1 rfl

/-! ## Claim C9 -/

/-- Claim C9: the operator fan-out (statement.rs lines 338-364).  `a <> b`
emits a sub-multiset of the diagnostics of `a = b`; `a >= b` emits a
sub-multiset of the union of `a > b` and `a = b`; `a <= b` of `a < b` and
`a = b` (each is in fact exactly the concatenation); every other operator
triggers the underlying binary-expression check exactly once. -/
theorem c9_operator_fan_out
    (ctx : ValidationContext) (left right : AstStatement) :
    ((visit_binary_expression ctx .NotEqual left right : Multiset Diagnostic)
      ≤ (visit_binary_expression ctx .Equal left right : Multiset Diagnostic))
    ∧ ((visit_binary_expression ctx .GreaterOrEqual left right :
          Multiset Diagnostic)
      ≤ (visit_binary_expression ctx .Greater left right : Multiset Diagnostic)
        + (visit_binary_expression ctx .Equal left right : Multiset Diagnostic))
    ∧ ((visit_binary_expression ctx .LessOrEqual left right :
          Multiset Diagnostic)
      ≤ (visit_binary_expression ctx .Less left right : Multiset Diagnostic)
        + (visit_binary_expression ctx .Equal left right : Multiset Diagnostic))
    ∧ (∀ op : Operator, op ≠ .NotEqual → op ≠ .GreaterOrEqual →
        op ≠ .LessOrEqual →
        visit_binary_expression ctx op left right
          = validate_binary_expression ctx op left right) := by
  refine ⟨?_, ?_, ?_, ?_⟩
  · exact le_of_eq (by rfl)
  · exact le_of_eq (by
      rw [show visit_binary_expression ctx .GreaterOrEqual left right
        = validate_binary_expression ctx .Greater left right
          ++ validate_binary_expression ctx .Equal left right from rfl]
      rw [show visit_binary_expression ctx .Greater left right
        = validate_binary_expression ctx .Greater left right from rfl]
      rw [show visit_binary_expression ctx .Equal left right
        = validate_binary_expression ctx .Equal left right from rfl]
      exact (Multiset.coe_add _ _))
  · exact le_of_eq (by
      rw [show visit_binary_expression ctx .LessOrEqual left right
        = validate_binary_expression ctx .Less left right
          ++ validate_binary_expression ctx .Equal left right from rfl]
      rw [show visit_binary_expression ctx .Less left right
        = validate_binary_expression ctx .Less left right from rfl]
      rw [show visit_binary_expression ctx .Equal left right
        = validate_binary_expression ctx .Equal left right from rfl]
      exact (Multiset.coe_add _ _))
  · intro op h1 h2 h3
    cases op <;> first | rfl | simp_all

/-- Witness for C9 at the `+` operator. -/
theorem c9_witness :
    visit_binary_expression ctx_char .Plus (.Reference "a") (.Reference "b")
      = validate_binary_expression ctx_char .Plus (.Reference "a")
          (.Reference "b") :=
  (c9_operator_fan_out ctx_char (.Reference "a") (.Reference "b")).2.2.2
    .Plus (by decide) (by decide) (by decide)

/-! ## Claim C7 -/

/-- Counterexample to claim C7 as stated.  The code's relaxation
(statement.rs line 811) is keyed on the type hint being a real type, not
on the expected nature being `Real`: here the expectation is `Int`, the
actual type `REAL` does not satisfy it, the expectation is not `Real`, yet
no `invalid_type_nature` diagnostic is emitted because the hint is real
and the actual type is numerical. -/
theorem c7_counterexample :
    validate_type_nature ctx_nature (.Reference "x") = []
    ∧ ctx_nature.annots.get_generic_nature (.Reference "x")
        = some TypeNature.Int
    ∧ ctx_nature.annots.get_type_hint (.Reference "x") = some real_type
    ∧ real_type.info.is_generic = false
    ∧ ctx_nature.annots.get_type (.Reference "x") = some real_type
    ∧ real_type.has_nature TypeNature.Int = false
    ∧ real_type.is_numerical = true
    ∧ TypeNature.Int ≠ TypeNature.Real := by
  refine ⟨rfl, rfl, rfl, rfl, rfl, rfl, rfl, by decide⟩

/-- Claim C7 (amended): for a node carrying a generic-nature expectation
whose type hint is present and not itself generic, `invalid_type_nature`
is emitted if and only if the actual type neither satisfies the expected
nature nor is a numerical type whose type hint is a real (floating-point)
type — the relaxation is keyed on the hint being real, not on the
expected nature being `Real` (statement.rs lines 809-818). -/
theorem c7_type_nature_amended
    (ctx : ValidationContext) (stmt : AstStatement) (hint actual : DataType)
    (g : TypeNature)
    (hH : ctx.annots.get_type_hint stmt = some hint)
    (hG : hint.info.is_generic = false)
    (hA : ctx.annots.get_type stmt = some actual)
    (hN : ctx.annots.get_generic_nature stmt = some g) :
    validate_type_nature ctx stmt
      = (if !(actual.has_nature g || (hint.is_real && actual.is_numerical))
          then [Diagnostic.invalid_type_nature actual.get_name (nature_name g)]
        else []) := by
  unfold validate_type_nature
  rw [hH]
  dsimp only [Option.orElse]
  cases hi : hint.info
  case Generic n s nat =>
    rw [hi] at hG
    simp [DataTypeInformation.is_generic] at hG
  all_goals
    dsimp only
    rw [hA, hN]

/-- Witness for the amended C7 at the concrete `REAL`-for-`Int` node. -/
theorem c7_amended_witness :
    validate_type_nature ctx_nature (.Reference "x")
      = (if !(real_type.has_nature TypeNature.Int
            || (real_type.is_real && real_type.is_numerical))
          then [Diagnostic.invalid_type_nature real_type.get_name
            (nature_name TypeNature.Int)]
        else []) :=
  c7_type_nature_amended ctx_nature (.Reference "x") real_type real_type
    TypeNature.Int rfl rfl rfl rfl

/-! ## Claim C5 -/

theorem inout_foldr_count (idxs : List Nat) (name : String) :
    ∀ l : List VariableIndexEntry,
      count_diag (Diagnostic.is_missing_inout_for name)
        (l.foldr (fun p acc =>
          (if idxs.contains p.location_in_parent then []
            else [Diagnostic.missing_inout_parameter p.name]) ++ acc) [])
      = (l.filter (fun p => !(idxs.contains p.location_in_parent)
          && p.name == name)).length := by
  intro l
  induction l with
  | nil => rfl
  | cons p t ih =>
      simp only [List.foldr_cons, List.filter_cons]
      rw [count_diag_append]
      cases hc : idxs.contains p.location_in_parent with
      | true =>
          simp_all [count_diag, Diagnostic.is_missing_inout_for]
      | false =>
          cases hn : p.name == name with
          | true =>
              simp_all [count_diag, Diagnostic.is_missing_inout_for]
              omega
          | false =>
              simp_all [count_diag, Diagnostic.is_missing_inout_for]

theorem inout_check_eq_foldr (declared : List VariableIndexEntry)
    (idxs : List Nat) (pou : PouIndexEntry)
    (h : (∃ n, pou = .FunctionBlock n) ∨ (∃ n, pou = .Program n)) :
    validate_call_inout_check pou declared idxs
      = (declared.filter
          (fun p => p.get_variable_type == VariableType.InOut)).foldr
        (fun p acc =>
          (if idxs.contains p.location_in_parent then []
            else [Diagnostic.missing_inout_parameter p.name]) ++ acc) [] := by
  have key : ∀ l : List VariableIndexEntry,
      (if l.isEmpty then ([] : List Diagnostic)
        else l.foldr (fun p acc =>
          (if idxs.contains p.location_in_parent then []
            else [Diagnostic.missing_inout_parameter p.name]) ++ acc) [])
      = l.foldr (fun p acc =>
          (if idxs.contains p.location_in_parent then []
            else [Diagnostic.missing_inout_parameter p.name]) ++ acc) [] := by
    intro l
    cases l with
    | nil => rfl
    | cons p t => rfl
  rcases h with ⟨n, rfl⟩ | ⟨n, rfl⟩ <;>
    · unfold validate_call_inout_check
      dsimp only
      rw [key]

/-- Claim C5: after the argument loop, if the resolved POU is a
`FunctionBlock` or a `Program`, every declared `InOut` parameter whose
slot index is not among the recorded slot indices produces exactly one
`missing_inout_parameter` diagnostic with its name; when every declared
`InOut` slot was recorded, none is produced; for POUs of any other kind
the check never fires (statement.rs lines 716-731).  The first conjunct
ties the check to `validate_call`'s output on a resolved POU. -/
theorem c5_missing_inout
    (pou : PouIndexEntry) (declared : List VariableIndexEntry)
    (idxs : List Nat) :
    (∀ (visit : AstStatement → List Diagnostic) (ctx : ValidationContext)
        (op : AstStatement) (params : Option AstStatement),
      ctx.find_pou op = some pou →
      validate_call visit ctx op params
        = visit op
          ++ ((validate_call_parameters visit ctx
                (ctx.index.get_declared_parameters pou.get_name)
                ((params.map flatten_expression_list).getD []) 0 [] true).1
            ++ validate_call_inout_check pou
                (ctx.index.get_declared_parameters pou.get_name)
                (validate_call_parameters visit ctx
                  (ctx.index.get_declared_parameters pou.get_name)
                  ((params.map flatten_expression_list).getD []) 0 [] true).2))
    ∧ ((∃ n, pou = .FunctionBlock n) ∨ (∃ n, pou = .Program n) →
      ∀ name, count_diag (Diagnostic.is_missing_inout_for name)
          (validate_call_inout_check pou declared idxs)
        = ((declared.filter
            (fun p => p.get_variable_type == VariableType.InOut)).filter
          (fun p => !(idxs.contains p.location_in_parent)
            && p.name == name)).length)
    ∧ ((∃ n, pou = .FunctionBlock n) ∨ (∃ n, pou = .Program n) →
      (∀ p ∈ declared, p.get_variable_type = VariableType.InOut →
        idxs.contains p.location_in_parent = true) →
      validate_call_inout_check pou declared idxs = [])
    ∧ ((∀ n, pou ≠ .FunctionBlock n) → (∀ n, pou ≠ .Program n) →
      validate_call_inout_check pou declared idxs = []) := by
  refine ⟨?_, ?_, ?_, ?_⟩
  · intro visit ctx op params hfind
    unfold validate_call
    rw [hfind]
  · intro h name
    rw [inout_check_eq_foldr declared idxs pou h, inout_foldr_count]
  · intro h hall
    rw [inout_check_eq_foldr declared idxs pou h]
    have : ∀ l : List VariableIndexEntry,
        (∀ p ∈ l, idxs.contains p.location_in_parent = true) →
        l.foldr (fun p acc =>
          (if idxs.contains p.location_in_parent then []
            else [Diagnostic.missing_inout_parameter p.name]) ++ acc) []
          = [] := by
      intro l
      induction l with
      | nil => intro _; rfl
      | cons p t ih =>
          intro hl
          simp only [List.foldr_cons, hl p (by simp), if_true, List.nil_append]
          exact ih (fun q hq => hl q (by simp [hq]))
    apply this
    intro p hp
    have hmem := List.mem_filter.mp hp
    exact hall p hmem.1 (by simpa using hmem.2)
  · intro h1 h2
    cases pou with
    | FunctionBlock n => exact absurd rfl (h1 n)
    | Program n => exact absurd rfl (h2 n)
    | Function n => rfl
    | Action n c => rfl
    | Method n c => rfl
    | Class n => rfl

/-- Witness for C5: `FB` declares input `x` (slot 0) and inout `y`
(slot 1); only slot 0 was passed, so exactly one diagnostic for `y`. -/
theorem c5_witness :
    count_diag (Diagnostic.is_missing_inout_for "y")
      (validate_call_inout_check (.FunctionBlock "FB")
        [⟨"x", "FB.x", "INT", .ByVal .Input, 0, false⟩,
         ⟨"y", "FB.y", "INT", .ByRef .InOut, 1, false⟩]
        [0]) = 1 := by
  rw [(c5_missing_inout (.FunctionBlock "FB")
    [⟨"x", "FB.x", "INT", .ByVal .Input, 0, false⟩,
     ⟨"y", "FB.y", "INT", .ByRef .InOut, 1, false⟩]
    [0]).2.1 (Or.inl ⟨"FB", rfl⟩) "y"]
  decide

/-! ## Claim C8 -/

theorem case_blocks_dup_count
    (ctx : ValidationContext) (visit : AstStatement → List Diagnostic)
    (hv : ∀ s, visit s = []) (v : Int) :
    ∀ (blocks : List ConditionalBlock) (seen : List Int),
      count_diag (Diagnostic.is_duplicate_for v)
          (validate_case_blocks visit ctx blocks seen)
        = (if seen.contains v
            then count_int_eval ctx v (blocks.map (fun b => b.condition))
            else count_int_eval ctx v (blocks.map (fun b => b.condition))
              - 1) := by
  intro blocks
  induction blocks with
  | nil =>
      intro seen
      cases h : seen.contains v <;>
        simp [validate_case_blocks, count_diag, count_int_eval, h]
  | cons b t ih =>
      intro seen
      have hfl : (b.body.map visit).flatten = [] := by
        simp [hv]
      have hinv : count_diag (Diagnostic.is_duplicate_for v)
          (match b.condition with
            | .Assignment _ _ => [Diagnostic.invalid_case_condition]
            | .CallStatement _ _ => [Diagnostic.invalid_case_condition]
            | _ => ([] : List Diagnostic)) = 0 := by
        cases b.condition <;> rfl
      simp only [validate_case_blocks, eval_case_condition]
      rw [hv b.condition, hfl]
      cases h : ctx.const_eval b.condition with
      | error err =>
          simp only [count_diag_append, hinv, List.append_nil,
            count_diag_nil]
          have h1 : count_diag (Diagnostic.is_duplicate_for v)
              [Diagnostic.non_constant_case_condition err] = 0 := rfl
          rw [h1, ih seen]
          have h2 : count_int_eval ctx v
              ((b :: t).map (fun b => b.condition))
              = count_int_eval ctx v (t.map (fun b => b.condition)) := by
            simp [count_int_eval, List.filter_cons, h]
          rw [h2]
          omega
      | ok r =>
          cases r with
          | none =>
              dsimp only
              simp only [count_diag_append, hinv, List.append_nil,
                count_diag_nil, ih seen]
              simp [count_int_eval, List.filter_cons, h]
          | some val =>
            cases val
            case LiteralInteger w =>
              dsimp only
              have h2 : count_int_eval ctx v
                  ((b :: t).map (fun b => b.condition))
                  = (if w == v then 1 else 0)
                    + count_int_eval ctx v (t.map (fun b => b.condition)) := by
                cases hw : w == v <;>
                  simp [count_int_eval, List.filter_cons, h, hw] <;> omega
              rw [h2]
              cases hseen : seen.contains w
              case true =>
                  simp only [eq_self_iff_true, if_true]
                  simp only [count_diag_append, hinv, List.append_nil,
                    count_diag_nil]
                  rw [ih seen]
                  have h3 : count_diag (Diagnostic.is_duplicate_for v)
                      [Diagnostic.duplicate_case_condition w]
                      = (if w == v then 1 else 0) := by
                    cases hw : w == v <;>
                      simp [count_diag, Diagnostic.is_duplicate_for, hw]
                  rw [h3]
                  cases hw : w == v
                  case true =>
                      have hwv : w = v := by simpa using hw
                      subst hwv
                      have hmem : w ∈ seen := by simpa using hseen
                      simp [hmem]
                  case false => simp
              case false =>
                  simp only [Bool.false_eq_true, if_false]
                  simp only [count_diag_append, hinv, List.append_nil,
                    count_diag_nil]
                  rw [ih (w :: seen)]
                  cases hw : w == v
                  case true =>
                      have hwv : w = v := by simpa using hw
                      subst hwv
                      have hcv : (w :: seen).contains w = true := by
                        simp [List.contains_cons]
                      rw [hcv]
                      simp only [hseen]
                      simp
                  case false =>
                      have hwv : ¬ v = w := by
                        intro hh
                        rw [hh] at hw
                        simp at hw
                      have hcv : (w :: seen).contains v = seen.contains v := by
                        simp [List.contains_cons, hwv]
                      rw [hcv]
                      cases hsv : seen.contains v <;> simp [hsv]
            all_goals
              dsimp only
              simp only [count_diag_append, hinv, List.append_nil,
                count_diag_nil, ih seen]
              simp [count_int_eval, List.filter_cons, h]

theorem case_blocks_nonconst_count
    (ctx : ValidationContext) (visit : AstStatement → List Diagnostic)
    (hv : ∀ s, visit s = []) :
    ∀ (blocks : List ConditionalBlock) (seen : List Int),
      count_diag Diagnostic.is_non_constant_case
          (validate_case_blocks visit ctx blocks seen)
        = ((blocks.map (fun b => b.condition)).filter
            (const_eval_fails ctx)).length := by
  intro blocks
  induction blocks with
  | nil => intro seen; rfl
  | cons b t ih =>
      intro seen
      have hfl : (b.body.map visit).flatten = [] := by
        simp [hv]
      have hinv : count_diag Diagnostic.is_non_constant_case
          (match b.condition with
            | .Assignment _ _ => [Diagnostic.invalid_case_condition]
            | .CallStatement _ _ => [Diagnostic.invalid_case_condition]
            | _ => ([] : List Diagnostic)) = 0 := by
        cases b.condition <;> rfl
      simp only [validate_case_blocks, eval_case_condition]
      rw [hv b.condition, hfl]
      cases h : ctx.const_eval b.condition with
      | error err =>
          simp only [count_diag_append, hinv, List.append_nil,
            count_diag_nil, ih]
          have h1 : count_diag Diagnostic.is_non_constant_case
              [Diagnostic.non_constant_case_condition err] = 1 := rfl
          rw [h1]
          simp [List.filter_cons, const_eval_fails, h]
          omega
      | ok r =>
          have h2 : ((b :: t).map (fun b => b.condition)).filter
              (const_eval_fails ctx)
              = (t.map (fun b => b.condition)).filter
                (const_eval_fails ctx) := by
            simp [List.filter_cons, const_eval_fails, h]
          rw [h2]
          cases r with
          | none =>
              dsimp only
              simp only [count_diag_append, hinv, List.append_nil,
                count_diag_nil, ih]
              simp [count_diag, Diagnostic.is_non_constant_case]
          | some val =>
            cases val
            case LiteralInteger w =>
              dsimp only
              cases hseen : seen.contains w
              case true =>
                  simp only [eq_self_iff_true, if_true]
                  simp only [count_diag_append, hinv, List.append_nil,
                    count_diag_nil, ih]
                  simp [count_diag, Diagnostic.is_non_constant_case]
              case false =>
                  simp only [Bool.false_eq_true, if_false]
                  simp only [count_diag_append, hinv, List.append_nil,
                    count_diag_nil, ih]
                  simp [count_diag, Diagnostic.is_non_constant_case]
            all_goals
              dsimp only
              simp only [count_diag_append, hinv, List.append_nil,
                count_diag_nil, ih]
              simp [count_diag, Diagnostic.is_non_constant_case]

/-- Claim C8: per case statement (statement.rs lines 741-785), each
condition on which the constant evaluator fails produces one
`non_constant_case_condition`; among conditions evaluating to integer
literals, the first occurrence of each value produces no diagnostic and
every additional occurrence produces exactly one `duplicate_case_condition`
for that value; non-integer evaluation results never contribute to
duplicate tracking.  The counting conjuncts project the condition-level
diagnostics by running the block loop with the trivial sub-visitor. -/
theorem c8_case_conditions
    (ctx : ValidationContext) (visit : AstStatement → List Diagnostic)
    (blocks : List ConditionalBlock)
    (hv : ∀ s, visit s = []) :
    (∀ c seen err, ctx.const_eval c = .error err →
      eval_case_condition ctx c seen
        = ([Diagnostic.non_constant_case_condition err], seen))
    ∧ (∀ c seen (v : Int),
        ctx.const_eval c = .ok (some (.LiteralInteger v)) →
        (seen.contains v = true →
          eval_case_condition ctx c seen
            = ([Diagnostic.duplicate_case_condition v], seen))
        ∧ (seen.contains v = false →
          eval_case_condition ctx c seen = ([], v :: seen)))
    ∧ (∀ c seen r, ctx.const_eval c = .ok r →
        (∀ v : Int, r ≠ some (.LiteralInteger v)) →
        eval_case_condition ctx c seen = ([], seen))
    ∧ (∀ v : Int, count_diag (Diagnostic.is_duplicate_for v)
          (validate_case_blocks visit ctx blocks [])
        = count_int_eval ctx v (blocks.map (fun b => b.condition)) - 1)
    ∧ count_diag Diagnostic.is_non_constant_case
        (validate_case_blocks visit ctx blocks [])
      = ((blocks.map (fun b => b.condition)).filter
          (const_eval_fails ctx)).length := by
  refine ⟨?_, ?_, ?_, ?_, ?_⟩
  · intro c seen err h
    simp [eval_case_condition, h]
  · intro c seen v h
    refine ⟨?_, ?_⟩
    · intro hseen
      have hmem : v ∈ seen := by simpa using hseen
      simp [eval_case_condition, h, hmem]
    · intro hseen
      have hmem : v ∉ seen := by simpa using hseen
      simp [eval_case_condition, h, hmem]
  · intro c seen r h hne
    simp only [eval_case_condition, h]
  · intro v
    rw [case_blocks_dup_count ctx visit hv v blocks []]
    rfl
  · exact case_blocks_nonconst_count ctx visit hv blocks []

/-- Witness for C8: conditions `1, 1, x` where `x` is not constant —
one duplicate for value 1 and one non-constant diagnostic. -/
theorem c8_witness :
    count_diag (Diagnostic.is_duplicate_for 1)
      (validate_case_blocks (fun _ => []) case_ctx
        [⟨.LiteralInteger 1, []⟩, ⟨.LiteralInteger 1, []⟩,
         ⟨.Reference "x", []⟩] []) = 1
    ∧ count_diag Diagnostic.is_non_constant_case
      (validate_case_blocks (fun _ => []) case_ctx
        [⟨.LiteralInteger 1, []⟩, ⟨.LiteralInteger 1, []⟩,
         ⟨.Reference "x", []⟩] []) = 1 := by
  have h := c8_case_conditions case_ctx (fun _ => [])
    [⟨.LiteralInteger 1, []⟩, ⟨.LiteralInteger 1, []⟩,
     ⟨.Reference "x", []⟩] (fun _ => rfl)
  refine ⟨?_, ?_⟩
  · rw [h.2.2.2.1 1]
    decide
  · rw [h.2.2.2.2]
    decide

/-! ## Claim C1 -/

/-- Counterexample to claim C1 as stated.  `validate_access_index`
(statement.rs line 252) ends in `unreachable!()`: a direct-access index
that is neither a literal integer nor a plain reference — here a boolean
literal — panics instead of terminating normally.  The panic is modelled
as `none`. -/
theorem c1_counterexample :
    validate_access_index ctx_char (.LiteralBool true) .Bit
      (.Integer "INT" true 16) = none := rfl

/-- Claim C1 (amended): the validator's rules append diagnostics and
return normally, except that `validate_access_index` only terminates
normally when the direct-access index is a literal integer or a plain
reference (appending at most one diagnostic); on any other index shape it
hits `unreachable!()` and aborts.  `validate_qualified_reference` (the
only caller, reached from the `visit` entry point) therefore returns
normally whenever the right-most direct-access index has one of those two
shapes. -/
theorem c1_access_index_amended
    (ctx : ValidationContext) (idx : AstStatement)
    (access : DirectAccessType) (target : DataTypeInformation)
    (h : (∃ v, idx = .LiteralInteger v) ∨ (∃ n, idx = .Reference n)) :
    (validate_access_index ctx idx access target).isSome = true
    ∧ ((validate_access_index ctx idx access target).getD []).length ≤ 1
    ∧ (∀ (es : List AstStatement) (ref : AstStatement)
        (rest : List AstStatement),
      es.reverse = .DirectAccess access idx :: ref :: rest →
      (validate_qualified_reference ctx es).isSome = true) := by
  have hsome : ∀ tt : DataTypeInformation,
      (validate_access_index ctx idx access tt).isSome = true := by
    intro tt
    rcases h with ⟨v, rfl⟩ | ⟨n, rfl⟩ <;> rfl
  refine ⟨hsome target, ?_, ?_⟩
  · rcases h with ⟨v, rfl⟩ | ⟨n, rfl⟩ <;>
      · unfold validate_access_index
        dsimp only
        split <;> (try split) <;> simp
  · intro es ref rest hrev
    unfold validate_qualified_reference
    rw [hrev]
    dsimp only
    split
    · split
      · rfl
      · exact hsome _
    · rfl

/-- Witness for the amended C1 at a literal-integer index. -/
theorem c1_witness :
    (validate_access_index ctx_char (.LiteralInteger 3) .Bit
      (.Integer "INT" true 16)).isSome = true :=
  (c1_access_index_amended ctx_char (.LiteralInteger 3) .Bit
    (.Integer "INT" true 16) (Or.inl ⟨3, rfl⟩)).1

end Rusty
